import Mathlib

/-!
Shallow embedding of the voice-assistant TTS core (VoiceProvider):
the request queue, playback controller, audio cache, offline-asset
lookup and error-handling paths of `performSpeak`, `speakText`,
`safeStopAudio`, `playStoredAudio`, `processQueue` and the retry
timers.  The host environment (connectivity, mute flag, the network
synthesis outcome, audio-object creation success and the random
backoff) is an explicit `Env` record passed to each step; playback
handles are modelled as a list of created-and-not-yet-unloaded sound
objects plus the single `soundRef` the controller tracks, so that the
single-live-handle invariant is a real statement and not a definition.
-/

namespace TTS

/-- `LOCAL_AUDIO_LANGUAGES = ["en", "hi", "kn"]`: base languages with
bundled offline audio. -/
def LOCAL_AUDIO_LANGUAGES : List String := ["en", "hi", "kn"]

/-- The characters before the first dash: the first element of
`languageCode.split("-")`. -/
def upToDash : List Char → List Char
  | [] => []
  | c :: cs => if c = '-' then [] else c :: upToDash cs

/-- `languageCode.split("-")[0] || "en"`: the base language code, with
the JS falsy-empty-string defaulting to `"en"`. -/
def baseLangOf (languageCode : String) : String :=
  let b := String.mk (upToDash languageCode.data)
  if b = "" then "en" else b

/-- A queued speech request `{text, languageCode, route}`. -/
structure Request where
  text : String
  languageCode : String
  route : Option String
  deriving DecidableEq, Repr

/-- Outcome of the `ttsAxios` network call: a response (whose
`audio[0].audioContent` may be absent), an HTTP error with a status
code (`error.response.status`), or a failure with no response at all
(timeout, connection error). -/
inductive SynthResult where
  | success (audioContent : Option String)
  | httpError (status : Nat)
  | networkError
  deriving DecidableEq, Repr

/-- Observable events of one `performSpeak` run: a network synthesis
call, or the creation of a playing sound for a given URI. -/
inductive Event where
  | networkCall (text languageCode : String)
  | played (uri : String)
  deriving DecidableEq, Repr

/-- Timer callbacks scheduled by the error handler: the 429 retry
(re-enqueue after `delay` ms) and the 401 cooldown counter reset. -/
inductive Scheduled where
  | retryRequest (delay : Nat) (r : Request)
  | resetRetryCount (delay : Nat)
  deriving DecidableEq, Repr

/-- The host environment as read during one drain step: connectivity
(`isOnline`), the mute flag, the offline asset store
(`getAudioForRoute`), the network outcome, whether each
`Audio.Sound.createAsync` succeeds, and the value of
`Math.random() * 500` used in the 429 backoff. -/
structure Env where
  isOnline : Bool
  isMuted : Bool
  offlineAssets : String → String → Option String
  synth : SynthResult
  storedPlaybackOk : Bool
  cachedPlaybackOk : Bool
  freshPlaybackOk : Bool
  rand500 : Nat

/-- The audio cache as the insertion-ordered list of key/value pairs
of the JS `Map` (oldest first). -/
abbrev Cache := List (String × String)

/-- The provider's mutable state: all created, not-yet-unloaded sound
objects (`live`, with fresh ids from `nextId`), the single
`soundRef.current`, `retryCountRef`, the cache `Map`,
`requestQueueRef` and `processingQueueRef`. -/
structure VState where
  live : List (Nat × String)
  soundRef : Option Nat
  retryCount : Nat
  cache : Cache
  queue : List Request
  processing : Bool
  nextId : Nat
  deriving DecidableEq, Repr

/-- `audioCache.has(key)`. -/
def cacheHas (c : Cache) (k : String) : Bool :=
  c.any (fun p => p.1 = k)

/-- `audioCache.get(key)`. -/
def cacheGet (c : Cache) (k : String) : Option String :=
  (c.find? (fun p => p.1 = k)).map (fun p => p.2)

/-- `audioCache.set(key, value)`: update in place when the key exists
(a JS `Map` keeps the original insertion position), append otherwise. -/
def cacheSet (c : Cache) (k v : String) : Cache :=
  if cacheHas c k then c.map (fun p => if p.1 = k then (k, v) else p)
  else c ++ [(k, v)]

/-- The cache write of `performSpeak`: `set` followed by
`if (audioCache.size > 50) delete(keys().next().value)` — evict the
oldest-inserted entry when the size passed 50. -/
def cachePut (c : Cache) (k v : String) : Cache :=
  if (cacheSet c k v).length > 50 then (cacheSet c k v).drop 1 else cacheSet c k v

/-- `safeStopAudio`: stop and unload `soundRef.current` when present
(errors swallowed), then clear the ref. -/
def safeStopAudio (s : VState) : VState :=
  match s.soundRef with
  | none => s
  | some id =>
      { s with live := s.live.filter (fun p => p.1 != id), soundRef := none }

/-- `Audio.Sound.createAsync(uri, shouldPlay: true)` succeeding: a
fresh sound object is created and becomes `soundRef.current`. -/
def createSound (s : VState) (uri : String) : VState :=
  { s with live := s.live ++ [(s.nextId, uri)], soundRef := some s.nextId,
           nextId := s.nextId + 1 }

/-- `handlePlaybackStatus` on `didJustFinish`: unload the current
sound and clear the ref. -/
def finishPlayback (s : VState) : VState :=
  match s.soundRef with
  | none => s
  | some id =>
      { s with live := s.live.filter (fun p => p.1 != id), soundRef := none }

/-- The data URI built for a base64 audio payload. -/
def dataUri (audioBase64 : String) : String :=
  "data:audio/wav;base64," ++ audioBase64

/-- `playStoredAudio(audioBase64)`: falsy payload returns false;
otherwise stop current audio, then create the playing sound; returns
whether playback started. -/
def playStoredAudio (e : Env) (s : VState) (audioBase64 : String) :
    VState × Bool × List Event :=
  if audioBase64 = "" then (s, false, [])
  else
    let s1 := safeStopAudio s
    if e.storedPlaybackOk then
      (createSound s1 (dataUri audioBase64), true, [Event.played (dataUri audioBase64)])
    else (s1, false, [])

/-- The offline-asset lookup guard of `performSpeak`:
`LOCAL_AUDIO_LANGUAGES.includes(baseLanguage) && route` followed by
`getAudioForRoute(route, baseLanguage)` and the truthiness test
`if (storedAudio)`. -/
def offlineAssetFor (e : Env) (baseLanguage : String) (route : Option String) :
    Option String :=
  match route with
  | none => none
  | some r =>
      if LOCAL_AUDIO_LANGUAGES.contains baseLanguage ∧ r ≠ "" then
        match e.offlineAssets r baseLanguage with
        | some a => if a = "" then none else some a
        | none => none
      else none

/-- The `catch` block of `performSpeak`: increment `retryCountRef`;
on HTTP 429 schedule the guarded re-enqueue with backoff
`5000 + Math.random()*500`; on HTTP 401 with the counter above 3
schedule the 5-minute counter reset. -/
def handleError (e : Env) (s : VState) (text languageCode : String)
    (route : Option String) (status : Option Nat) : VState × List Scheduled :=
  if status = some 429 then
    ({ s with retryCount := s.retryCount + 1 },
      [Scheduled.retryRequest (5000 + e.rand500) ⟨text, languageCode, route⟩])
  else if status = some 401 then
    if s.retryCount + 1 > 3 then
      ({ s with retryCount := s.retryCount + 1 },
        [Scheduled.resetRetryCount (5 * 60 * 1000)])
    else ({ s with retryCount := s.retryCount + 1 }, [])
  else ({ s with retryCount := s.retryCount + 1 }, [])

/-- The tail of the online branch of `performSpeak`, from the
`audioCache.has(cacheKey)` check onwards: play the cached URI on a
hit; otherwise issue the network call, re-read the mute flag, check
the payload, cache it, play it, and reset the retry counter — with
every failure routed to the catch block. -/
def resolveSpeech (e : Env) (s2 : VState) (evs : List Event)
    (text languageCode : String) (route : Option String) :
    VState × List Event × List Scheduled :=
  let cacheKey := text ++ "_" ++ languageCode
  match cacheGet s2.cache cacheKey with
  | some cachedAudioUri =>
      if e.cachedPlaybackOk then
        (createSound s2 cachedAudioUri, evs ++ [Event.played cachedAudioUri], [])
      else
        let r := handleError e s2 text languageCode route none
        (r.1, evs, r.2)
  | none =>
      let evs2 := evs ++ [Event.networkCall text languageCode]
      match e.synth with
      | SynthResult.success ac =>
          if e.isMuted then (s2, evs2, [])
          else
            match ac with
            | some a =>
                if a = "" then
                  let r := handleError e s2 text languageCode route none
                  (r.1, evs2, r.2)
                else
                  let s3 := { s2 with cache := cachePut s2.cache cacheKey (dataUri a) }
                  if e.freshPlaybackOk then
                    let s4 := createSound s3 (dataUri a)
                    ({ s4 with retryCount := 0 }, evs2 ++ [Event.played (dataUri a)], [])
                  else
                    let r := handleError e s3 text languageCode route none
                    (r.1, evs2, r.2)
            | none =>
                let r := handleError e s2 text languageCode route none
                (r.1, evs2, r.2)
      | SynthResult.httpError st =>
          let r := handleError e s2 text languageCode route (some st)
          (r.1, evs2, r.2)
      | SynthResult.networkError =>
          let r := handleError e s2 text languageCode route none
          (r.1, evs2, r.2)

/-- `performSpeak(text, languageCode, route)`: offline branch plays a
bundled asset when available and otherwise does nothing; online branch
force-stops current audio, tries the bundled asset, and falls through
to `resolveSpeech` (cache, then network) when that did not play. -/
def performSpeak (e : Env) (s : VState) (text languageCode : String)
    (route : Option String) : VState × List Event × List Scheduled :=
  if e.isOnline = false then
    match offlineAssetFor e (baseLangOf languageCode) route with
    | some stored =>
        let r := playStoredAudio e s stored
        (r.1, r.2.2, [])
    | none => (s, [], [])
  else
    let s1 := safeStopAudio s
    let att :=
      match offlineAssetFor e (baseLangOf languageCode) route with
      | some stored => playStoredAudio e s1 stored
      | none => (s1, false, [])
    if att.2.1 then (att.1, att.2.2, [])
    else resolveSpeech e att.1 att.2.2 text languageCode route

/-- One iteration of `processQueue`: when the queue is empty, clear
the processing flag and idle; otherwise shift the head request and run
`performSpeak` on it (its errors are swallowed). -/
def processOne (e : Env) (s : VState) : VState × List Event × List Scheduled :=
  match s.queue with
  | [] => ({ s with processing := false }, [], [])
  | r :: rest =>
      performSpeak e { s with processing := true, queue := rest }
        r.text r.languageCode r.route

/-- The language-code normalization of `speakText`:
default parameter plus `if (!languageCode || typeof ...)`. -/
def normLanguageCode : Option String → String
  | some lc => if lc = "" then "en" else lc
  | none => "en"

/-- The text normalization of `speakText`:
`if (text.length > 300) text = text.substring(0, 300) + "..."`. -/
def truncate300 (text : String) : String :=
  if text.length > 300 then text.take 300 ++ "..." else text

/-- `speakText(text, languageCode, route)`: no-op unless ready,
non-empty and unmuted; otherwise normalize and append to the queue. -/
def speakText (isReady isMuted : Bool) (s : VState) (text : String)
    (languageCode : Option String) (route : Option String) : VState :=
  if isReady = false ∨ text = "" ∨ isMuted = true then s
  else
    { s with queue :=
        s.queue ++ [⟨truncate300 text, normLanguageCode languageCode, route⟩] }

/-- The 429 `setTimeout` callback: re-enqueue only when the queue
holds fewer than 5 pending items, otherwise drop the request. -/
def fireRetry (s : VState) (r : Request) : VState :=
  if s.queue.length < 5 then { s with queue := s.queue ++ [r] } else s

/-- The 401 cooldown `setTimeout` callback: reset the retry counter. -/
def fireReset (s : VState) : VState :=
  { s with retryCount := 0 }

/-- The commands a trace of the provider can observe: an external
`speakText` call, an external `stopAudio` call, one drain-loop step
under a host environment, natural end of playback, and the two timer
callbacks firing. -/
inductive Cmd where
  | speak (isReady isMuted : Bool) (text : String)
      (languageCode : Option String) (route : Option String)
  | stop
  | drain (e : Env)
  | finish
  | retryFire (r : Request)
  | resetFire

/-- One trace step. -/
def step : Cmd → VState → VState
  | Cmd.speak ready muted t lc r, s => speakText ready muted s t lc r
  | Cmd.stop, s => safeStopAudio s
  | Cmd.drain e, s => (processOne e s).1
  | Cmd.finish, s => finishPlayback s
  | Cmd.retryFire r, s => fireRetry s r
  | Cmd.resetFire, s => fireReset s

/-- The provider's state at module load: no sound, empty cache and
queue, counters at zero. -/
def initState : VState :=
  { live := [], soundRef := none, retryCount := 0, cache := [],
    queue := [], processing := false, nextId := 0 }

/-- Run a trace. -/
def run (cmds : List Cmd) (s : VState) : VState :=
  cmds.foldl (fun s c => step c s) s

/-- At most one live handle, and it is the one `soundRef` tracks. -/
def liveOk (s : VState) : Bool :=
  match s.soundRef, s.live with
  | none, [] => true
  | some id, [p] => p.1 == id
  | _, _ => false

/-! ### Field-preservation lemmas -/

theorem safeStopAudio_cache (s : VState) : (safeStopAudio s).cache = s.cache := by
  unfold safeStopAudio; split <;> rfl

theorem safeStopAudio_queue (s : VState) : (safeStopAudio s).queue = s.queue := by
  unfold safeStopAudio; split <;> rfl

theorem safeStopAudio_retryCount (s : VState) :
    (safeStopAudio s).retryCount = s.retryCount := by
  unfold safeStopAudio; split <;> rfl

theorem safeStopAudio_nextId (s : VState) : (safeStopAudio s).nextId = s.nextId := by
  unfold safeStopAudio; split <;> rfl

theorem playStoredAudio_cache (e : Env) (s : VState) (a : String) :
    (playStoredAudio e s a).1.cache = s.cache := by
  unfold playStoredAudio createSound
  split
  · rfl
  · split <;> simp [safeStopAudio_cache]

theorem playStoredAudio_queue (e : Env) (s : VState) (a : String) :
    (playStoredAudio e s a).1.queue = s.queue := by
  unfold playStoredAudio createSound
  split
  · rfl
  · split <;> simp [safeStopAudio_queue]

theorem playStoredAudio_retryCount (e : Env) (s : VState) (a : String) :
    (playStoredAudio e s a).1.retryCount = s.retryCount := by
  unfold playStoredAudio createSound
  split
  · rfl
  · split <;> simp [safeStopAudio_retryCount]

theorem handleError_state (e : Env) (s : VState) (t l : String) (r : Option String)
    (st : Option Nat) :
    (handleError e s t l r st).1 = { s with retryCount := s.retryCount + 1 } := by
  unfold handleError
  split
  · rfl
  · split
    · split <;> rfl
    · rfl

theorem handleError_live (e : Env) (s : VState) (t l : String) (r : Option String)
    (st : Option Nat) : (handleError e s t l r st).1.live = s.live := by
  rw [handleError_state]

theorem handleError_soundRef (e : Env) (s : VState) (t l : String) (r : Option String)
    (st : Option Nat) : (handleError e s t l r st).1.soundRef = s.soundRef := by
  rw [handleError_state]

/-! ### Single-live-handle invariant lemmas -/

theorem safeStop_cleared (s : VState) (h : liveOk s = true) :
    (safeStopAudio s).live = [] ∧ (safeStopAudio s).soundRef = none := by
  unfold liveOk at h
  unfold safeStopAudio
  cases href : s.soundRef with
  | none =>
      rw [href] at h
      cases hlive : s.live with
      | nil => simp [href, hlive]
      | cons p l => rw [hlive] at h; simp at h
  | some id =>
      rw [href] at h
      cases hlive : s.live with
      | nil => rw [hlive] at h; simp at h
      | cons p l =>
          cases l with
          | nil =>
              rw [hlive] at h
              simp only [beq_iff_eq] at h
              simp [href, hlive, List.filter, h]
          | cons q l2 => rw [hlive] at h; simp at h

theorem cleared_liveOk (s : VState) (h1 : s.live = []) (h2 : s.soundRef = none) :
    liveOk s = true := by
  unfold liveOk; rw [h1, h2]

theorem createSound_liveOk (s : VState) (uri : String) (h1 : s.live = []) :
    liveOk (createSound s uri) = true := by
  unfold createSound liveOk
  simp [h1]

theorem playStored_cleared_in (e : Env) (s : VState) (a : String)
    (h1 : s.live = []) (h2 : s.soundRef = none) :
    liveOk (playStoredAudio e s a).1 = true ∧
    ((playStoredAudio e s a).2.1 = false →
      (playStoredAudio e s a).1.live = [] ∧ (playStoredAudio e s a).1.soundRef = none) := by
  have hstop : safeStopAudio s = s := by
    unfold safeStopAudio; rw [h2]
  unfold playStoredAudio
  split
  · exact ⟨cleared_liveOk s h1 h2, fun _ => ⟨h1, h2⟩⟩
  · rw [hstop]
    split
    · exact ⟨createSound_liveOk s _ h1, by simp⟩
    · exact ⟨cleared_liveOk s h1 h2, fun _ => ⟨h1, h2⟩⟩

theorem playStored_liveOk (e : Env) (s : VState) (a : String) (h : liveOk s = true) :
    liveOk (playStoredAudio e s a).1 = true := by
  unfold playStoredAudio
  split
  · exact h
  · obtain ⟨h1, h2⟩ := safeStop_cleared s h
    split
    · exact createSound_liveOk _ _ h1
    · exact cleared_liveOk _ h1 h2

theorem liveOk_retryCount (s : VState) (n : Nat) :
    liveOk { s with retryCount := n } = liveOk s := rfl

theorem liveOk_cache (s : VState) (c : Cache) :
    liveOk { s with cache := c } = liveOk s := rfl

theorem liveOk_queue (s : VState) (q : List Request) :
    liveOk { s with queue := q } = liveOk s := rfl

theorem liveOk_proc_queue (s : VState) (b : Bool) (q : List Request) :
    liveOk { s with processing := b, queue := q } = liveOk s := rfl

theorem resolveSpeech_liveOk (e : Env) (s2 : VState) (evs : List Event)
    (t l : String) (r : Option String) (h1 : s2.live = []) (h2 : s2.soundRef = none) :
    liveOk (resolveSpeech e s2 evs t l r).1 = true := by
  have hok : liveOk s2 = true := cleared_liveOk _ h1 h2
  unfold resolveSpeech
  rcases hcg : cacheGet s2.cache (t ++ "_" ++ l) with _ | uri
  · rcases e.synth with ac | st | _
    · by_cases hm : e.isMuted = true
      · simp [hcg, hm, hok]
      · simp only [Bool.not_eq_true] at hm
        rcases ac with _ | a
        · simp [hcg, hm, handleError_state, liveOk_retryCount, hok]
        · by_cases ha : a = ""
          · simp [hcg, hm, ha, handleError_state, liveOk_retryCount, hok]
          · by_cases hf : e.freshPlaybackOk = true
            · simp only [hcg, hm, ha, hf, if_true, if_false, Bool.false_eq_true]
              rw [liveOk_retryCount]
              exact createSound_liveOk _ _ h1
            · simp only [Bool.not_eq_true] at hf
              simp only [hcg, hm, ha, hf, Bool.false_eq_true, if_false, handleError_state]
              exact hok
    · simp [hcg, handleError_state, liveOk_retryCount, hok]
    · simp [hcg, handleError_state, liveOk_retryCount, hok]
  · by_cases hc : e.cachedPlaybackOk = true
    · simp only [hcg, hc, if_true]
      exact createSound_liveOk _ _ h1
    · simp only [Bool.not_eq_true] at hc
      simp [hcg, hc, handleError_state, liveOk_retryCount, hok]

theorem performSpeak_liveOk (e : Env) (s : VState) (t l : String) (r : Option String)
    (h : liveOk s = true) : liveOk (performSpeak e s t l r).1 = true := by
  unfold performSpeak
  split
  · split
    · exact playStored_liveOk _ _ _ h
    · exact h
  · obtain ⟨h1, h2⟩ := safeStop_cleared s h
    rcases hoa : offlineAssetFor e (baseLangOf l) r with _ | stored
    · simp only [hoa, Bool.false_eq_true, if_false]
      exact resolveSpeech_liveOk e _ _ t l r h1 h2
    · simp only [hoa]
      obtain ⟨hpl, hpf⟩ := playStored_cleared_in e (safeStopAudio s) stored h1 h2
      by_cases hb : (playStoredAudio e (safeStopAudio s) stored).2.1 = true
      · simp only [hb, if_true]
        exact hpl
      · simp only [Bool.not_eq_true] at hb
        simp only [hb, Bool.false_eq_true, if_false]
        obtain ⟨h1b, h2b⟩ := hpf hb
        exact resolveSpeech_liveOk e _ _ t l r h1b h2b

theorem speakText_liveOk (ready muted : Bool) (s : VState) (t : String)
    (lc ro : Option String) (h : liveOk s = true) :
    liveOk (speakText ready muted s t lc ro) = true := by
  unfold speakText
  split
  · exact h
  · rw [liveOk_queue]; exact h

theorem stop_liveOk (s : VState) (h : liveOk s = true) :
    liveOk (safeStopAudio s) = true := by
  obtain ⟨h1, h2⟩ := safeStop_cleared s h
  exact cleared_liveOk _ h1 h2

theorem finish_liveOk (s : VState) (h : liveOk s = true) :
    liveOk (finishPlayback s) = true := by
  have : finishPlayback s = safeStopAudio s := by
    unfold finishPlayback safeStopAudio; rfl
  rw [this]
  exact stop_liveOk s h

theorem processOne_liveOk (e : Env) (s : VState) (h : liveOk s = true) :
    liveOk (processOne e s).1 = true := by
  unfold processOne
  rcases hq : s.queue with _ | ⟨r, rest⟩
  · exact h
  · exact performSpeak_liveOk e _ _ _ _ (by rw [liveOk_proc_queue]; exact h)

theorem step_liveOk (c : Cmd) (s : VState) (h : liveOk s = true) :
    liveOk (step c s) = true := by
  cases c with
  | speak ready muted t lc ro => exact speakText_liveOk ready muted s t lc ro h
  | stop => exact stop_liveOk s h
  | drain e => exact processOne_liveOk e s h
  | finish => exact finish_liveOk s h
  | retryFire r =>
      show liveOk (fireRetry s r) = true
      unfold fireRetry
      split
      · rw [liveOk_queue]; exact h
      · exact h
  | resetFire =>
      show liveOk (fireReset s) = true
      unfold fireReset
      rw [liveOk_retryCount]; exact h

theorem run_liveOk (cmds : List Cmd) (s : VState) (h : liveOk s = true) :
    liveOk (run cmds s) = true := by
  induction cmds generalizing s with
  | nil => exact h
  | cons c cs ih =>
      unfold run
      rw [List.foldl_cons]
      exact ih (step c s) (step_liveOk c s h)

/-! ### Event- and cache-shape lemmas -/

theorem playStored_fail_evs (e : Env) (s : VState) (a : String)
    (h : (playStoredAudio e s a).2.1 = false) : (playStoredAudio e s a).2.2 = [] := by
  by_cases ha : a = ""
  · unfold playStoredAudio
    simp [ha]
  · unfold playStoredAudio at h ⊢
    by_cases hs : e.storedPlaybackOk = true
    · simp [ha, hs] at h
    · simp only [Bool.not_eq_true] at hs
      simp [ha, hs]

theorem playStored_no_network (e : Env) (s : VState) (a t' l' : String) :
    Event.networkCall t' l' ∉ (playStoredAudio e s a).2.2 := by
  unfold playStoredAudio
  split
  · simp
  · split <;> simp

/-- `performSpeak` takes exactly one of four shapes: offline with a
bundled asset, offline with nothing, online with the bundled asset
playing, or online falling through to the cache/network resolver with
an empty event prefix and the caller's cache. -/
theorem performSpeak_cases (e : Env) (s : VState) (t l : String) (r : Option String) :
    (∃ stored, e.isOnline = false ∧
        offlineAssetFor e (baseLangOf l) r = some stored ∧
        performSpeak e s t l r =
          ((playStoredAudio e s stored).1, (playStoredAudio e s stored).2.2, [])) ∨
    (e.isOnline = false ∧ offlineAssetFor e (baseLangOf l) r = none ∧
        performSpeak e s t l r = (s, [], [])) ∨
    (∃ stored, e.isOnline = true ∧
        offlineAssetFor e (baseLangOf l) r = some stored ∧
        (playStoredAudio e (safeStopAudio s) stored).2.1 = true ∧
        performSpeak e s t l r =
          ((playStoredAudio e (safeStopAudio s) stored).1,
            (playStoredAudio e (safeStopAudio s) stored).2.2, [])) ∨
    (∃ s2, e.isOnline = true ∧ s2.cache = s.cache ∧
        s2.queue = s.queue ∧ s2.retryCount = s.retryCount ∧
        performSpeak e s t l r = resolveSpeech e s2 [] t l r) := by
  by_cases hon : e.isOnline = true
  · rcases hoa : offlineAssetFor e (baseLangOf l) r with _ | stored
    · right; right; right
      refine ⟨safeStopAudio s, hon, safeStopAudio_cache s, safeStopAudio_queue s,
        safeStopAudio_retryCount s, ?_⟩
      unfold performSpeak
      simp [hon, hoa]
    · by_cases hb : (playStoredAudio e (safeStopAudio s) stored).2.1 = true
      · right; right; left
        refine ⟨stored, hon, rfl, hb, ?_⟩
        unfold performSpeak
        simp [hon, hoa, hb]
      · simp only [Bool.not_eq_true] at hb
        right; right; right
        refine ⟨(playStoredAudio e (safeStopAudio s) stored).1, hon, ?_, ?_, ?_, ?_⟩
        · rw [playStoredAudio_cache, safeStopAudio_cache]
        · rw [playStoredAudio_queue, safeStopAudio_queue]
        · rw [playStoredAudio_retryCount, safeStopAudio_retryCount]
        · unfold performSpeak
          simp [hon, hoa, hb, playStored_fail_evs e _ stored hb]
  · simp only [Bool.not_eq_true] at hon
    rcases hoa : offlineAssetFor e (baseLangOf l) r with _ | stored
    · right; left
      refine ⟨hon, rfl, ?_⟩
      unfold performSpeak
      simp [hon, hoa]
    · left
      refine ⟨stored, hon, rfl, ?_⟩
      unfold performSpeak
      simp [hon, hoa]

/-- The events of the resolver: on a cache hit a possible playback of
the cached URI and nothing else; on a miss exactly one network call,
followed by a playback only when the mute flag is down. -/
theorem resolveSpeech_events (e : Env) (s2 : VState) (evs : List Event)
    (t l : String) (r : Option String) :
    ((∃ v, cacheGet s2.cache (t ++ "_" ++ l) = some v ∧
        ((resolveSpeech e s2 evs t l r).2.1 = evs ∨
          (resolveSpeech e s2 evs t l r).2.1 = evs ++ [Event.played v]))) ∨
    (cacheGet s2.cache (t ++ "_" ++ l) = none ∧
      ((resolveSpeech e s2 evs t l r).2.1 = evs ++ [Event.networkCall t l] ∨
        (e.isMuted = false ∧ ∃ u,
          (resolveSpeech e s2 evs t l r).2.1 =
            evs ++ [Event.networkCall t l, Event.played u]))) := by
  unfold resolveSpeech
  rcases hcg : cacheGet s2.cache (t ++ "_" ++ l) with _ | v
  · right
    refine ⟨rfl, ?_⟩
    rcases e.synth with ac | st | _
    · by_cases hm : e.isMuted = true
      · left; simp [hcg, hm]
      · simp only [Bool.not_eq_true] at hm
        rcases ac with _ | a
        · left; simp [hcg, hm]
        · by_cases ha : a = ""
          · left; simp [hcg, hm, ha]
          · by_cases hf : e.freshPlaybackOk = true
            · right
              exact ⟨hm, dataUri a, by simp [hcg, hm, ha, hf]⟩
            · simp only [Bool.not_eq_true] at hf
              left; simp [hcg, hm, ha, hf]
    · left; simp [hcg]
    · left; simp [hcg]
  · left
    refine ⟨v, rfl, ?_⟩
    by_cases hc : e.cachedPlaybackOk = true
    · right; simp [hcg, hc]
    · simp only [Bool.not_eq_true] at hc
      left; simp [hcg, hc]

/-- The resolver's cache: unchanged, or — only on a miss — the
`cachePut` of the request's key. -/
theorem resolveSpeech_cache (e : Env) (s2 : VState) (evs : List Event)
    (t l : String) (r : Option String) :
    (resolveSpeech e s2 evs t l r).1.cache = s2.cache ∨
    (cacheGet s2.cache (t ++ "_" ++ l) = none ∧
      ∃ w, (resolveSpeech e s2 evs t l r).1.cache =
        cachePut s2.cache (t ++ "_" ++ l) w) := by
  unfold resolveSpeech
  rcases hcg : cacheGet s2.cache (t ++ "_" ++ l) with _ | v
  · rcases e.synth with ac | st | _
    · by_cases hm : e.isMuted = true
      · left; simp [hcg, hm]
      · simp only [Bool.not_eq_true] at hm
        rcases ac with _ | a
        · left; simp [hcg, hm, handleError_state]
        · by_cases ha : a = ""
          · left; simp [hcg, hm, ha, handleError_state]
          · by_cases hf : e.freshPlaybackOk = true
            · right
              refine ⟨rfl, dataUri a, ?_⟩
              simp [hcg, hm, ha, hf, createSound]
            · simp only [Bool.not_eq_true] at hf
              right
              refine ⟨rfl, dataUri a, ?_⟩
              simp [hcg, hm, ha, hf, handleError_state]
    · left; simp [hcg, handleError_state]
    · left; simp [hcg, handleError_state]
  · by_cases hc : e.cachedPlaybackOk = true
    · left; simp [hcg, hc, createSound]
    · simp only [Bool.not_eq_true] at hc
      left; simp [hcg, hc, handleError_state]

/-! ### Cache lemmas -/

theorem cacheGet_none_iff (c : Cache) (k : String) :
    cacheGet c k = none ↔ cacheHas c k = false := by
  unfold cacheGet cacheHas
  simp [Option.map_eq_none', List.find?_eq_none, List.any_eq_true]

theorem cacheSet_new (c : Cache) (k v : String) (h : cacheHas c k = false) :
    cacheSet c k v = c ++ [(k, v)] := by
  unfold cacheSet
  rw [h]
  simp

theorem cacheSet_length (c : Cache) (k v : String) :
    (cacheSet c k v).length = if cacheHas c k then c.length else c.length + 1 := by
  unfold cacheSet
  split <;> simp_all

theorem cachePut_length_le (c : Cache) (k v : String) (h : c.length ≤ 50) :
    (cachePut c k v).length ≤ 50 := by
  have hs : (cacheSet c k v).length ≤ c.length + 1 := by
    rw [cacheSet_length]; split <;> omega
  unfold cachePut
  split
  · simp only [List.length_drop]; omega
  · omega

theorem cachePut_new_lt (c : Cache) (k v : String)
    (hnew : cacheHas c k = false) (hlt : c.length < 50) :
    cachePut c k v = c ++ [(k, v)] := by
  unfold cachePut
  rw [cacheSet_new c k v hnew]
  split
  · next hgt => exact absurd hgt (by simp; omega)
  · rfl

theorem cachePut_new_full (c : Cache) (k v : String)
    (hnew : cacheHas c k = false) (hfull : c.length = 50) :
    cachePut c k v = c.drop 1 ++ [(k, v)] := by
  unfold cachePut
  rw [cacheSet_new c k v hnew]
  split
  · rw [List.drop_append_of_le_length (by omega)]
  · simp_all

theorem performSpeak_cache (e : Env) (s : VState) (t l : String) (r : Option String) :
    (performSpeak e s t l r).1.cache = s.cache ∨
    (cacheHas s.cache (t ++ "_" ++ l) = false ∧
      ∃ w, (performSpeak e s t l r).1.cache = cachePut s.cache (t ++ "_" ++ l) w) := by
  rcases performSpeak_cases e s t l r with
    ⟨stored, _, _, heq⟩ | ⟨_, _, heq⟩ | ⟨stored, _, _, _, heq⟩ | ⟨s2, _, hc, _, _, heq⟩
  · left; rw [heq]; exact playStoredAudio_cache e s stored
  · left; rw [heq]
  · left; rw [heq]
    rw [playStoredAudio_cache, safeStopAudio_cache]
  · rw [heq]
    rcases resolveSpeech_cache e s2 [] t l r with hsame | ⟨hmiss, w, hput⟩
    · left; rw [hsame, hc]
    · right
      rw [hc] at hmiss hput
      exact ⟨(cacheGet_none_iff _ _).mp hmiss, w, hput⟩

theorem speakText_cache (ready muted : Bool) (s : VState) (t : String)
    (lc ro : Option String) : (speakText ready muted s t lc ro).cache = s.cache := by
  unfold speakText; split <;> rfl

theorem finishPlayback_cache (s : VState) : (finishPlayback s).cache = s.cache := by
  unfold finishPlayback; split <;> rfl

theorem fireRetry_cache (s : VState) (r : Request) : (fireRetry s r).cache = s.cache := by
  unfold fireRetry; split <;> rfl

theorem step_cache_le (c : Cmd) (s : VState) (h : s.cache.length ≤ 50) :
    (step c s).cache.length ≤ 50 := by
  cases c with
  | speak ready muted t lc ro =>
      show ((speakText ready muted s t lc ro).cache.length ≤ 50)
      rw [speakText_cache]; exact h
  | stop =>
      show ((safeStopAudio s).cache.length ≤ 50)
      rw [safeStopAudio_cache]; exact h
  | drain e =>
      show ((processOne e s).1.cache.length ≤ 50)
      unfold processOne
      rcases s.queue with _ | ⟨r, rest⟩
      · exact h
      · rcases performSpeak_cache e { s with processing := true, queue := rest }
          r.text r.languageCode r.route with hsame | ⟨_, w, hput⟩
        · rw [hsame]; exact h
        · rw [hput]; exact cachePut_length_le _ _ _ h
  | finish =>
      show ((finishPlayback s).cache.length ≤ 50)
      rw [finishPlayback_cache]; exact h
  | retryFire r =>
      show ((fireRetry s r).cache.length ≤ 50)
      rw [fireRetry_cache]; exact h
  | resetFire => exact h

theorem run_cache_le (cmds : List Cmd) (s : VState) (h : s.cache.length ≤ 50) :
    (run cmds s).cache.length ≤ 50 := by
  induction cmds generalizing s with
  | nil => exact h
  | cons c cs ih =>
      unfold run
      rw [List.foldl_cons]
      exact ih (step c s) (step_cache_le c s h)

/-! ### Resolver lemmas for the error paths -/

theorem performSpeak_noasset (e : Env) (s : VState) (t l : String) (r : Option String)
    (hon : e.isOnline = true) (hnoasset : offlineAssetFor e (baseLangOf l) r = none) :
    performSpeak e s t l r = resolveSpeech e (safeStopAudio s) [] t l r := by
  unfold performSpeak
  simp [hon, hnoasset]

theorem resolveSpeech_429 (e : Env) (s2 : VState) (evs : List Event) (t l : String)
    (r : Option String) (hmiss : cacheGet s2.cache (t ++ "_" ++ l) = none)
    (hsynth : e.synth = SynthResult.httpError 429) :
    resolveSpeech e s2 evs t l r =
      ({ s2 with retryCount := s2.retryCount + 1 },
        evs ++ [Event.networkCall t l],
        [Scheduled.retryRequest (5000 + e.rand500) ⟨t, l, r⟩]) := by
  unfold resolveSpeech
  simp [hmiss, hsynth, handleError]

theorem resolveSpeech_401 (e : Env) (s2 : VState) (evs : List Event) (t l : String)
    (r : Option String) (hmiss : cacheGet s2.cache (t ++ "_" ++ l) = none)
    (hsynth : e.synth = SynthResult.httpError 401) :
    (resolveSpeech e s2 evs t l r).1 = { s2 with retryCount := s2.retryCount + 1 } ∧
    (resolveSpeech e s2 evs t l r).2.1 = evs ++ [Event.networkCall t l] ∧
    (s2.retryCount + 1 > 3 →
      (resolveSpeech e s2 evs t l r).2.2 = [Scheduled.resetRetryCount (5 * 60 * 1000)]) ∧
    (¬ s2.retryCount + 1 > 3 → (resolveSpeech e s2 evs t l r).2.2 = []) := by
  unfold resolveSpeech
  by_cases hc : s2.retryCount + 1 > 3 <;>
    simp [hmiss, hsynth, handleError, hc]

theorem resolveSpeech_error_state (e : Env) (s2 : VState) (evs : List Event)
    (t l : String) (r : Option String) (hmiss : cacheGet s2.cache (t ++ "_" ++ l) = none) :
    (e.synth = SynthResult.networkError →
      (resolveSpeech e s2 evs t l r).1.retryCount = s2.retryCount + 1) ∧
    (∀ st, e.synth = SynthResult.httpError st →
      (resolveSpeech e s2 evs t l r).1.retryCount = s2.retryCount + 1) ∧
    (e.synth = SynthResult.success none → e.isMuted = false →
      (resolveSpeech e s2 evs t l r).1.retryCount = s2.retryCount + 1) ∧
    (∀ a, e.synth = SynthResult.success (some a) → a ≠ "" → e.isMuted = false →
      e.freshPlaybackOk = true → (resolveSpeech e s2 evs t l r).1.retryCount = 0) := by
  refine ⟨?_, ?_, ?_, ?_⟩
  · intro hsynth
    unfold resolveSpeech
    simp [hmiss, hsynth, handleError_state]
  · intro st hsynth
    unfold resolveSpeech
    simp [hmiss, hsynth, handleError_state]
  · intro hsynth hm
    unfold resolveSpeech
    simp [hmiss, hsynth, hm, handleError_state]
  · intro a hsynth ha hm hf
    unfold resolveSpeech
    simp [hmiss, hsynth, ha, hm, hf, createSound]

theorem resolveSpeech_network_args (e : Env) (s2 : VState) (evs : List Event)
    (t l : String) (r : Option String) (t' l' : String)
    (hevs : ∀ a b, Event.networkCall a b ∉ evs)
    (hin : Event.networkCall t' l' ∈ (resolveSpeech e s2 evs t l r).2.1) :
    t' = t ∧ l' = l := by
  rcases resolveSpeech_events e s2 evs t l r with ⟨v, _, h1 | h1⟩ | ⟨_, h1 | ⟨_, u, h1⟩⟩
  · rw [h1] at hin
    exact absurd hin (hevs t' l')
  · rw [h1] at hin
    rcases List.mem_append.mp hin with h2 | h2
    · exact absurd h2 (hevs t' l')
    · simp at h2
  · rw [h1] at hin
    rcases List.mem_append.mp hin with h2 | h2
    · exact absurd h2 (hevs t' l')
    · simp at h2
      exact h2
  · rw [h1] at hin
    rcases List.mem_append.mp hin with h2 | h2
    · exact absurd h2 (hevs t' l')
    · simp at h2
      exact h2

theorem performSpeak_network_args (e : Env) (s : VState) (t l : String)
    (r : Option String) (t' l' : String)
    (hin : Event.networkCall t' l' ∈ (performSpeak e s t l r).2.1) :
    t' = t ∧ l' = l := by
  rcases performSpeak_cases e s t l r with
    ⟨stored, _, _, heq⟩ | ⟨_, _, heq⟩ | ⟨stored, _, _, _, heq⟩ | ⟨s2, _, _, _, _, heq⟩
  · rw [heq] at hin
    exact absurd hin (playStored_no_network e s stored t' l')
  · rw [heq] at hin
    simp at hin
  · rw [heq] at hin
    exact absurd hin (playStored_no_network e _ stored t' l')
  · rw [heq] at hin
    exact resolveSpeech_network_args e s2 [] t l r t' l' (by simp) hin

/-! ### Concrete fixtures used by witnesses and counterexamples -/

/-- An asset store with no bundled audio. -/
def noAssets : String → String → Option String := fun _ _ => none

/-- An online, unmuted environment whose network call succeeds with a
base64 payload and where every sound creation succeeds. -/
def envOnline : Env :=
  { isOnline := true, isMuted := false, offlineAssets := noAssets,
    synth := SynthResult.success (some "QUJD"), storedPlaybackOk := true,
    cachedPlaybackOk := true, freshPlaybackOk := true, rand500 := 7 }

/-- An asset store bundling Hindi audio for the route named home. -/
def homeHindiAssets : String → String → Option String :=
  fun r l => if r = "home" ∧ l = "hi" then some "SGVsbG8=" else none

/-! ### Claims -/

/-- C1: for every sequence of `speakText`, `stopAudio`, drain-loop,
playback-completion and timer-callback steps, the provider holds at
most one live audio handle at any instant — every path that starts new
playback (offline asset, cache hit, or fresh synthesis) first stops
and unloads any currently held handle, so the later request always
wins. -/
theorem claim_playback_single_live_handle (cmds : List Cmd) :
    liveOk (run cmds initState) = true :=
  run_liveOk cmds initState rfl

/-- C2: after every completed put the cache holds at most 50 entries;
inserting a fresh key into a cache of fewer than 50 entries appends
it, inserting into a full cache of 50 evicts exactly the
oldest-inserted surviving entry (insertion order, not access order);
`performSpeak` writes the cache only through such a put of a key it
does not yet hold (values are never overwritten), and every reachable
state keeps the bound. -/
theorem claim_audio_cache_bounded_eviction (c : Cache) (k v : String)
    (hlen : c.length ≤ 50) (hnew : cacheHas c k = false) :
    (cachePut c k v).length ≤ 50 ∧
    (c.length < 50 → cachePut c k v = c ++ [(k, v)]) ∧
    (c.length = 50 → cachePut c k v = c.drop 1 ++ [(k, v)]) ∧
    (∀ e s t l r, (performSpeak e s t l r).1.cache = s.cache ∨
      (cacheHas s.cache (t ++ "_" ++ l) = false ∧
        ∃ w, (performSpeak e s t l r).1.cache = cachePut s.cache (t ++ "_" ++ l) w)) ∧
    (∀ cmds, (run cmds initState).cache.length ≤ 50) := by
  refine ⟨cachePut_length_le c k v hlen,
    fun hlt => cachePut_new_lt c k v hnew hlt,
    fun hfull => cachePut_new_full c k v hnew hfull,
    fun e s t l r => performSpeak_cache e s t l r,
    fun cmds => run_cache_le cmds initState (by simp [initState])⟩

/-- Witness for C2 at a one-entry cache and a fresh key. -/
theorem claim_audio_cache_bounded_eviction_witness :
    ([(("a_en" : String), ("u" : String))].length ≤ 50 ∧
      cacheHas [("a_en", "u")] "b_en" = false) ∧
    ((cachePut [("a_en", "u")] "b_en" "w").length ≤ 50 ∧
      ([("a_en", "u")].length < 50 →
        cachePut [("a_en", "u")] "b_en" "w" = [("a_en", "u")] ++ [("b_en", "w")]) ∧
      ([("a_en", "u")].length = 50 →
        cachePut [("a_en", "u")] "b_en" "w" =
          [("a_en", "u")].drop 1 ++ [("b_en", "w")]) ∧
      (∀ e s t l r, (performSpeak e s t l r).1.cache = s.cache ∨
        (cacheHas s.cache (t ++ "_" ++ l) = false ∧
          ∃ w, (performSpeak e s t l r).1.cache = cachePut s.cache (t ++ "_" ++ l) w)) ∧
      (∀ cmds, (run cmds initState).cache.length ≤ 50)) :=
  ⟨⟨by decide, by decide⟩,
    claim_audio_cache_bounded_eviction [("a_en", "u")] "b_en" "w" (by decide) (by decide)⟩

/-- C7: whenever a processed request finds its key
`${text}_${languageCode}` in the audio cache, no network synthesis
call is issued for that request. -/
theorem claim_cache_hit_no_network (e : Env) (s : VState) (t l : String)
    (r : Option String) (hhit : cacheHas s.cache (t ++ "_" ++ l) = true) :
    ∀ t' l', Event.networkCall t' l' ∉ (performSpeak e s t l r).2.1 := by
  intro t' l'
  rcases performSpeak_cases e s t l r with
    ⟨stored, _, _, heq⟩ | ⟨_, _, heq⟩ | ⟨stored, _, _, _, heq⟩ | ⟨s2, _, hc, _, _, heq⟩
  · rw [heq]; exact playStored_no_network e s stored t' l'
  · rw [heq]; simp
  · rw [heq]; exact playStored_no_network e _ stored t' l'
  · rw [heq]
    rcases resolveSpeech_events e s2 [] t l r with ⟨v, _, hsh⟩ | ⟨hmiss, _⟩
    · rcases hsh with h1 | h1 <;> rw [h1] <;> simp
    · rw [hc] at hmiss
      rw [cacheGet_none_iff] at hmiss
      rw [hhit] at hmiss
      simp at hmiss

/-- Witness for C7: a cache holding the request's key. -/
theorem claim_cache_hit_no_network_witness :
    cacheHas [("Hello_en", "u")] ("Hello" ++ "_" ++ "en") = true ∧
    ∀ t' l', Event.networkCall t' l' ∉
      (performSpeak envOnline { initState with cache := [("Hello_en", "u")] }
        "Hello" "en" none).2.1 :=
  ⟨by decide,
    claim_cache_hit_no_network envOnline { initState with cache := [("Hello_en", "u")] }
      "Hello" "en" none (by decide)⟩

/-- C10: while offline, processing a request changes no cache entry
and issues no network call; and when the base language is outside the
offline allowlist, or the route is null, or the route has no bundled
asset, the request completes with no observable effect at all — even
when audio for its pair sits in the cache. -/
theorem claim_offline_no_cache_no_network (e : Env) (s : VState) (t l : String)
    (r : Option String) (hoff : e.isOnline = false) :
    (performSpeak e s t l r).1.cache = s.cache ∧
    (∀ t' l', Event.networkCall t' l' ∉ (performSpeak e s t l r).2.1) ∧
    (LOCAL_AUDIO_LANGUAGES.contains (baseLangOf l) = false →
      offlineAssetFor e (baseLangOf l) r = none) ∧
    (r = none → offlineAssetFor e (baseLangOf l) r = none) ∧
    (∀ rt, r = some rt → e.offlineAssets rt (baseLangOf l) = none →
      offlineAssetFor e (baseLangOf l) r = none) ∧
    (offlineAssetFor e (baseLangOf l) r = none →
      performSpeak e s t l r = (s, [], [])) := by
  have hnoton : ¬ e.isOnline = true := by rw [hoff]; simp
  refine ⟨?_, ?_, ?_, ?_, ?_, ?_⟩
  · rcases performSpeak_cases e s t l r with
      ⟨stored, _, _, heq⟩ | ⟨_, _, heq⟩ | ⟨_, hon, _, _, _⟩ | ⟨_, hon, _, _, _, _⟩
    · rw [heq]; exact playStoredAudio_cache e s stored
    · rw [heq]
    · exact absurd hon hnoton
    · exact absurd hon hnoton
  · intro t' l'
    rcases performSpeak_cases e s t l r with
      ⟨stored, _, _, heq⟩ | ⟨_, _, heq⟩ | ⟨_, hon, _, _, _⟩ | ⟨_, hon, _, _, _, _⟩
    · rw [heq]; exact playStored_no_network e s stored t' l'
    · rw [heq]; simp
    · exact absurd hon hnoton
    · exact absurd hon hnoton
  · intro hlang
    have hnotmem : baseLangOf l ∉ LOCAL_AUDIO_LANGUAGES := by simpa using hlang
    unfold offlineAssetFor
    rcases r with _ | rt
    · rfl
    · simp [hnotmem]
  · intro hr
    rw [hr]
    rfl
  · intro rt hr hnone
    rw [hr]
    unfold offlineAssetFor
    simp [hnone]
  · intro hnone
    unfold performSpeak
    simp [hoff, hnone]

/-- Witness for C10: offline environment, a cache that does hold the
request's pair, a language outside the allowlist. -/
theorem claim_offline_no_cache_no_network_witness :
    ({ envOnline with isOnline := false } : Env).isOnline = false ∧
    performSpeak { envOnline with isOnline := false }
      { initState with cache := [("Hallo_de", "u")] } "Hallo" "de" none =
      ({ initState with cache := [("Hallo_de", "u")] }, [], []) := by
  refine ⟨rfl, ?_⟩
  have h := claim_offline_no_cache_no_network { envOnline with isOnline := false }
    { initState with cache := [("Hallo_de", "u")] } "Hallo" "de" none rfl
  exact h.2.2.2.2.2 (h.2.2.2.1 rfl)

/-- C3: a synthesis attempt failing with HTTP 429 schedules exactly
one retry of the identical request (same text, language and route)
after `5000 + Math.random()*500` ms — in the range 5000 to 5500 ms —
and the fired callback appends it to the queue exactly when the queue
then holds fewer than 5 pending items, dropping it silently
otherwise. -/
theorem claim_rate_limited_retry (e : Env) (s : VState) (t l : String)
    (r : Option String) (hon : e.isOnline = true)
    (hnoasset : offlineAssetFor e (baseLangOf l) r = none)
    (hmiss : cacheGet s.cache (t ++ "_" ++ l) = none)
    (hsynth : e.synth = SynthResult.httpError 429) (hrand : e.rand500 < 500) :
    (performSpeak e s t l r).2.2 =
      [Scheduled.retryRequest (5000 + e.rand500) ⟨t, l, r⟩] ∧
    5000 ≤ 5000 + e.rand500 ∧ 5000 + e.rand500 < 5500 ∧
    (∀ s' req, (s'.queue.length < 5 →
        fireRetry s' req = { s' with queue := s'.queue ++ [req] }) ∧
      (¬ s'.queue.length < 5 → fireRetry s' req = s')) := by
  have hmiss' : cacheGet (safeStopAudio s).cache (t ++ "_" ++ l) = none := by
    rw [safeStopAudio_cache]; exact hmiss
  refine ⟨?_, by omega, by omega, ?_⟩
  · rw [performSpeak_noasset e s t l r hon hnoasset,
      resolveSpeech_429 e (safeStopAudio s) [] t l r hmiss' hsynth]
  · intro s' req
    constructor
    · intro hlt
      unfold fireRetry
      rw [if_pos hlt]
    · intro hge
      unfold fireRetry
      rw [if_neg hge]

/-- Witness for C3: a 429 environment, empty cache, no assets. -/
theorem claim_rate_limited_retry_witness :
    (({ envOnline with synth := SynthResult.httpError 429 } : Env).isOnline = true ∧
      offlineAssetFor { envOnline with synth := SynthResult.httpError 429 }
        (baseLangOf "en") none = none ∧
      cacheGet initState.cache ("x" ++ "_" ++ "en") = none ∧
      ({ envOnline with synth := SynthResult.httpError 429 } : Env).rand500 < 500) ∧
    ((performSpeak { envOnline with synth := SynthResult.httpError 429 } initState
        "x" "en" none).2.2 =
      [Scheduled.retryRequest
        (5000 + ({ envOnline with synth := SynthResult.httpError 429 } : Env).rand500)
        ⟨"x", "en", none⟩] ∧
      5000 ≤ 5000 + ({ envOnline with synth := SynthResult.httpError 429 } : Env).rand500 ∧
      5000 + ({ envOnline with synth := SynthResult.httpError 429 } : Env).rand500 < 5500 ∧
      (∀ s' req, (s'.queue.length < 5 →
          fireRetry s' req = { s' with queue := s'.queue ++ [req] }) ∧
        (¬ s'.queue.length < 5 → fireRetry s' req = s'))) :=
  ⟨⟨by decide, by decide, by decide, by decide⟩,
    claim_rate_limited_retry { envOnline with synth := SynthResult.httpError 429 }
      initState "x" "en" none (by decide) (by decide) (by decide) (by decide) (by decide)⟩

/-- A state reached by draining four requests against an environment
whose network call always fails with HTTP 401: the retry counter ends
above 3. -/
def stateAfterFour401 : VState :=
  run (List.replicate 4 (Cmd.drain { envOnline with synth := SynthResult.httpError 401 }))
    { initState with queue := List.replicate 4 ⟨"x", "en", none⟩ }

/-- C4 counterexample: after four 401 failures the retry counter
exceeds 3, yet the next processed request still issues a network
synthesis call — the code never pauses synthesis; the 5-minute timer
only resets the counter. -/
theorem claim_auth_pause_counterexample :
    stateAfterFour401.retryCount > 3 ∧
    Event.networkCall "x" "en" ∈
      (performSpeak envOnline stateAfterFour401 "x" "en" none).2.1 := by
  constructor
  · decide
  · decide

/-- C4 amended: on an HTTP 401 response the retry counter is
incremented; when it then exceeds 3, a single 5-minute timer is
scheduled whose callback resets the counter to zero (otherwise nothing
is scheduled); the request itself was still synthesized — a network
call is recorded, synthesis is never paused — and `speakText` enqueues
independently of the counter. -/
theorem claim_auth_failure_cooldown (e : Env) (s : VState) (t l : String)
    (r : Option String) (hon : e.isOnline = true)
    (hnoasset : offlineAssetFor e (baseLangOf l) r = none)
    (hmiss : cacheGet s.cache (t ++ "_" ++ l) = none)
    (hsynth : e.synth = SynthResult.httpError 401) :
    (performSpeak e s t l r).1.retryCount = s.retryCount + 1 ∧
    (s.retryCount + 1 > 3 →
      (performSpeak e s t l r).2.2 = [Scheduled.resetRetryCount (5 * 60 * 1000)]) ∧
    (¬ s.retryCount + 1 > 3 → (performSpeak e s t l r).2.2 = []) ∧
    Event.networkCall t l ∈ (performSpeak e s t l r).2.1 ∧
    (∀ s', fireReset s' = { s' with retryCount := 0 }) ∧
    (∀ ready muted t2 lc r2 n,
      (speakText ready muted { s with retryCount := n } t2 lc r2).queue =
        (speakText ready muted s t2 lc r2).queue) := by
  have hmiss' : cacheGet (safeStopAudio s).cache (t ++ "_" ++ l) = none := by
    rw [safeStopAudio_cache]; exact hmiss
  have h := resolveSpeech_401 e (safeStopAudio s) [] t l r hmiss' hsynth
  rw [performSpeak_noasset e s t l r hon hnoasset]
  rw [safeStopAudio_retryCount] at h
  refine ⟨by rw [h.1], h.2.2.1, h.2.2.2, ?_, ?_, ?_⟩
  · rw [h.2.1]
    simp
  · intro s'
    rfl
  · intro ready muted t2 lc r2 n
    by_cases hcond : ready = false ∨ t2 = "" ∨ muted = true <;>
      simp [speakText, hcond]

/-- Witness for C4's amended theorem at a 401 environment. -/
theorem claim_auth_failure_cooldown_witness :
    (({ envOnline with synth := SynthResult.httpError 401 } : Env).isOnline = true ∧
      cacheGet initState.cache ("x" ++ "_" ++ "en") = none) ∧
    ((performSpeak { envOnline with synth := SynthResult.httpError 401 } initState
        "x" "en" none).1.retryCount = initState.retryCount + 1 ∧
      Event.networkCall "x" "en" ∈
        (performSpeak { envOnline with synth := SynthResult.httpError 401 } initState
          "x" "en" none).2.1) := by
  have h := claim_auth_failure_cooldown
    { envOnline with synth := SynthResult.httpError 401 } initState "x" "en" none
    (by decide) (by decide) (by decide) (by decide)
  exact ⟨⟨by decide, by decide⟩, h.1, h.2.2.2.1⟩

/-- C5 counterexample: a failure with no HTTP response at all (a plain
network error) also increments the retry counter — the counter counts
every synthesis failure, not only HTTP 401. -/
theorem claim_retry_counter_counterexample :
    ({ envOnline with synth := SynthResult.networkError } : Env).synth =
      SynthResult.networkError ∧
    initState.retryCount = 0 ∧
    (performSpeak { envOnline with synth := SynthResult.networkError } initState
      "x" "en" none).1.retryCount = 1 := by
  refine ⟨rfl, rfl, ?_⟩
  decide

/-- C5 amended: the retry counter is incremented on every failed
synthesis attempt — network error, any HTTP error status (429, 401 or
other), and a response with missing audio content — and reset to zero
when a fresh synthesis succeeds unmuted and its playback starts. -/
theorem claim_retry_counter_all_failures (e : Env) (s : VState) (t l : String)
    (r : Option String) (hon : e.isOnline = true)
    (hnoasset : offlineAssetFor e (baseLangOf l) r = none)
    (hmiss : cacheGet s.cache (t ++ "_" ++ l) = none) :
    (e.synth = SynthResult.networkError →
      (performSpeak e s t l r).1.retryCount = s.retryCount + 1) ∧
    (∀ st, e.synth = SynthResult.httpError st →
      (performSpeak e s t l r).1.retryCount = s.retryCount + 1) ∧
    (e.synth = SynthResult.success none → e.isMuted = false →
      (performSpeak e s t l r).1.retryCount = s.retryCount + 1) ∧
    (∀ a, e.synth = SynthResult.success (some a) → a ≠ "" → e.isMuted = false →
      e.freshPlaybackOk = true → (performSpeak e s t l r).1.retryCount = 0) := by
  have hmiss' : cacheGet (safeStopAudio s).cache (t ++ "_" ++ l) = none := by
    rw [safeStopAudio_cache]; exact hmiss
  have h := resolveSpeech_error_state e (safeStopAudio s) [] t l r hmiss'
  rw [safeStopAudio_retryCount] at h
  rw [performSpeak_noasset e s t l r hon hnoasset]
  exact h

/-- Witness for C5's amended theorem at a network-error environment. -/
theorem claim_retry_counter_all_failures_witness :
    (({ envOnline with synth := SynthResult.networkError } : Env).isOnline = true ∧
      cacheGet initState.cache ("x" ++ "_" ++ "en") = none ∧
      ({ envOnline with synth := SynthResult.networkError } : Env).synth =
        SynthResult.networkError) ∧
    (performSpeak { envOnline with synth := SynthResult.networkError } initState
      "x" "en" none).1.retryCount = initState.retryCount + 1 := by
  have h := claim_retry_counter_all_failures
    { envOnline with synth := SynthResult.networkError } initState "x" "en" none
    (by decide) (by decide) (by decide)
  exact ⟨⟨by decide, by decide, by decide⟩, h.1 rfl⟩

/-- C6: a `speakText` call that enqueues (ready, non-empty text,
unmuted) enqueues the text unchanged when it has at most 300
characters, and the first 300 characters followed by an ellipsis when
longer; and every network synthesis call carries exactly the text and
language of the request being processed. -/
theorem claim_speak_text_truncation (ready muted : Bool) (s : VState) (t : String)
    (lc ro : Option String) (henq : ¬(ready = false ∨ t = "" ∨ muted = true)) :
    (t.length ≤ 300 →
      speakText ready muted s t lc ro =
        { s with queue := s.queue ++ [⟨t, normLanguageCode lc, ro⟩] }) ∧
    (t.length > 300 →
      speakText ready muted s t lc ro =
        { s with queue := s.queue ++ [⟨t.take 300 ++ "...", normLanguageCode lc, ro⟩] }) ∧
    (∀ e s' t2 l2 r2 t' l',
      Event.networkCall t' l' ∈ (performSpeak e s' t2 l2 r2).2.1 → t' = t2 ∧ l' = l2) := by
  refine ⟨?_, ?_, fun e s' t2 l2 r2 t' l' hin =>
    performSpeak_network_args e s' t2 l2 r2 t' l' hin⟩
  · intro hle
    unfold speakText
    rw [if_neg henq]
    unfold truncate300
    rw [if_neg (by omega)]
  · intro hgt
    unfold speakText
    rw [if_neg henq]
    unfold truncate300
    rw [if_pos hgt]

/-- Witness for C6: a ready, unmuted call with a short text. -/
theorem claim_speak_text_truncation_witness :
    ¬((true : Bool) = false ∨ ("hello" : String) = "" ∨ (false : Bool) = true) ∧
    (("hello" : String).length ≤ 300 →
      speakText true false initState "hello" none none =
        { initState with queue :=
            initState.queue ++ [⟨"hello", normLanguageCode none, none⟩] }) :=
  ⟨by decide,
    (claim_speak_text_truncation true false initState "hello" none none (by decide)).1⟩

/-- C8: offline with the request's base language in the offline
allowlist, a non-empty route and a bundled non-empty asset whose
playback succeeds, `performSpeak` plays exactly the bundled asset and
records no network call; the asset's sound becomes the single tracked
live handle. -/
theorem claim_offline_asset_playback (e : Env) (s : VState) (t l rt a : String)
    (hoff : e.isOnline = false)
    (hlang : LOCAL_AUDIO_LANGUAGES.contains (baseLangOf l) = true)
    (hrt : rt ≠ "") (hasset : e.offlineAssets rt (baseLangOf l) = some a)
    (ha : a ≠ "") (hplay : e.storedPlaybackOk = true)
    (hlive : liveOk s = true) :
    (performSpeak e s t l (some rt)).2.1 = [Event.played (dataUri a)] ∧
    (∀ t' l', Event.networkCall t' l' ∉ (performSpeak e s t l (some rt)).2.1) ∧
    (performSpeak e s t l (some rt)).1.soundRef = some s.nextId ∧
    (performSpeak e s t l (some rt)).1.live = [(s.nextId, dataUri a)] := by
  have hmem : baseLangOf l ∈ LOCAL_AUDIO_LANGUAGES := by simpa using hlang
  have hoa : offlineAssetFor e (baseLangOf l) (some rt) = some a := by
    unfold offlineAssetFor
    simp [hmem, hrt, hasset, ha]
  obtain ⟨h1, h2⟩ := safeStop_cleared s hlive
  have hps : playStoredAudio e s a =
      (createSound (safeStopAudio s) (dataUri a), true, [Event.played (dataUri a)]) := by
    unfold playStoredAudio
    rw [if_neg ha, if_pos hplay]
  have hperf : performSpeak e s t l (some rt) =
      ((playStoredAudio e s a).1, (playStoredAudio e s a).2.2, []) := by
    unfold performSpeak
    simp [hoff, hoa]
  rw [hperf, hps]
  refine ⟨rfl, by simp, ?_, ?_⟩
  · show some (safeStopAudio s).nextId = some s.nextId
    rw [safeStopAudio_nextId]
  · show (safeStopAudio s).live ++ [((safeStopAudio s).nextId, dataUri a)] =
      [(s.nextId, dataUri a)]
    rw [h1, safeStopAudio_nextId]
    rfl

/-- Witness for C8: the spec scenario — `speakText("Hi", "hi-IN",
"home")` offline with a bundled Hindi asset for route home. -/
theorem claim_offline_asset_playback_witness :
    (({ envOnline with isOnline := false, offlineAssets := homeHindiAssets } : Env).isOnline
        = false ∧
      LOCAL_AUDIO_LANGUAGES.contains (baseLangOf "hi-IN") = true ∧
      homeHindiAssets "home" (baseLangOf "hi-IN") = some "SGVsbG8=") ∧
    ((performSpeak { envOnline with isOnline := false, offlineAssets := homeHindiAssets }
        initState "Hi" "hi-IN" (some "home")).2.1 = [Event.played (dataUri "SGVsbG8=")] ∧
      ∀ t' l', Event.networkCall t' l' ∉
        (performSpeak { envOnline with isOnline := false, offlineAssets := homeHindiAssets }
          initState "Hi" "hi-IN" (some "home")).2.1) := by
  have h := claim_offline_asset_playback
    { envOnline with isOnline := false, offlineAssets := homeHindiAssets }
    initState "Hi" "hi-IN" "home" "SGVsbG8=" (by decide) (by decide) (by decide)
    (by decide) (by decide) (by decide) (by decide)
  exact ⟨⟨by decide, by decide, by decide⟩, h.1, h.2.1⟩

/-- C9 counterexample: with the mute flag set, processing a request
whose key is cached starts playback anyway — the cache-hit path never
re-reads the mute flag, so playback of a resolved response does start
while muted. -/
theorem claim_mute_recheck_counterexample :
    ({ envOnline with isMuted := true } : Env).isMuted = true ∧
    (performSpeak { envOnline with isMuted := true }
        { initState with cache := [("Hello_en", "u")] } "Hello" "en" none).2.1 =
      [Event.played "u"] := by
  refine ⟨rfl, ?_⟩
  decide

/-- C9 amended: the mute flag is read before every enqueue —
`speakText` while muted is a no-op — and once more after the network
call, before playing a freshly synthesized response: while muted, a
request that reaches the network produces the network call and nothing
else. The cache-hit and offline-asset paths do not re-read the flag. -/
theorem claim_mute_checks (e : Env) (s : VState) (t l : String) (r : Option String)
    (hm : e.isMuted = true) :
    (∀ ready s' t2 lc r2, speakText ready true s' t2 lc r2 = s') ∧
    (∀ t' l', Event.networkCall t' l' ∈ (performSpeak e s t l r).2.1 →
      (performSpeak e s t l r).2.1 = [Event.networkCall t l] ∧
      (∀ u, Event.played u ∉ (performSpeak e s t l r).2.1)) := by
  constructor
  · intro ready s' t2 lc r2
    unfold speakText
    simp
  · intro t' l' hin
    rcases performSpeak_cases e s t l r with
      ⟨stored, _, _, heq⟩ | ⟨_, _, heq⟩ | ⟨stored, _, _, _, heq⟩ | ⟨s2, _, _, _, _, heq⟩
    · rw [heq] at hin
      exact absurd hin (playStored_no_network e s stored t' l')
    · rw [heq] at hin
      simp at hin
    · rw [heq] at hin
      exact absurd hin (playStored_no_network e _ stored t' l')
    · rcases resolveSpeech_events e s2 [] t l r with ⟨v, _, h1 | h1⟩ | ⟨_, h1 | ⟨hm2, _, _⟩⟩
      · rw [heq] at hin ⊢
        rw [h1] at hin
        simp at hin
      · rw [heq] at hin ⊢
        rw [h1] at hin
        simp at hin
      · rw [heq, h1]
        simp
      · rw [hm] at hm2
        simp at hm2

/-- Witness for C9's amended theorem: a muted environment. -/
theorem claim_mute_checks_witness :
    ({ envOnline with isMuted := true } : Env).isMuted = true ∧
    (∀ ready s' t2 lc r2, speakText ready true s' t2 lc r2 = s') :=
  ⟨rfl,
    (claim_mute_checks { envOnline with isMuted := true } initState "x" "en" none rfl).1⟩

end TTS
